import Mathlib

/-!
Verification development for the incremental cross-validation experiment engine
of the reviewer-experience-prediction repository (`src/util/cv_learn.py`).

The Python source is shallowly embedded: configuration validation
(`CVConfig.__init__`, `CVConfig._further_validate_and_setup`), the experiment
constructor checks (`RunCVExperiments.__init__`), the objective-function
dispatch (`_resolve_objective_function`), the grid-search precondition loop
(`_do_grid_search_round`), the incremental training loop
(`_do_training_cross_validation`), the majority baseline
(`_get_majority_baseline`), and the per-fold estimator copies (the `copy`
calls building `_cv_learners`) become Lean functions over explicit data.
Machine integers are modelled as `Int`/`Nat` (Python integers are unbounded),
Python float literals that the code compares exactly (`0.25`, `0.0`) as `Rat`,
and fallible constructors as `Except String`.

Definitions whose doc comment starts with `Modelled from the spec:` stand for
repository code that lives in modules not present under `src/`
(`src/__init__.py`, `src/experiments.py`, `src/datasets.py`); they follow the
wording of the specification.
-/

namespace CvLearn

/-- The recognized game names: the keys of `APPID_DICT` in
`src/data/__init__.py` (the set `VALID_GAMES` exported by the package
module is built from them). -/
def VALID_GAMES : List String :=
  ["Dota_2", "Counter_Strike_Global_Offensive", "Team_Fortress_2",
   "Grand_Theft_Auto_V", "Football_Manager_2015", "Sid_Meiers_Civilization_5",
   "Garrys_Mod", "Arma_3", "The_Elder_Scrolls_V", "Warframe", "Counter_Strike"]

/-- Modelled from the spec: the recognized label set `LABELS` is defined in the
package module `src/__init__.py`, which is not under `src/`.  The spec and the
CLI in `src/util/cv_learn.py` (choices of `--prediction_label`, default
`total_game_hours_bin`) fix that it contains the playtime labels used by the
scenarios. -/
def LABELS : List String :=
  ["total_game_hours", "total_game_hours_bin"]

/-- Modelled from the spec: the keys of `LEARNER_DICT` from `src/__init__.py`
(not under `src/`).  `src/util/cv_learn.py` itself compares learner names with
the strings `MiniBatchKMeans`, `PassiveAggressiveRegressor` and imports the
five estimator classes, fixing the key set. -/
def LEARNER_DICT_KEYS : List String :=
  ["BernoulliNB", "MultinomialNB", "Perceptron",
   "PassiveAggressiveRegressor", "MiniBatchKMeans"]

/-- Modelled from the spec: the keys of `OBJ_FUNC_ABBRS_DICT` from
`src/__init__.py` (not under `src/`); a dictionary whose keys are objective
abbreviation strings (the spec names the kappa family dispatched on the
prefixes `uwk`, `lwk`, `qwk`, plus `pearson_r`; the CLI default is `qwk`).
Only two facts about it are used below: its keys are strings, and the
dispatch prefixes appear among them. -/
def OBJ_FUNC_ABBRS_KEYS : List String :=
  ["pearson_r", "accuracy", "uwk", "uwk_off_by_one",
   "lwk", "lwk_off_by_one", "qwk", "qwk_off_by_one"]

/-- Modelled from the spec: `ExperimentalData.sampling_options` from
`src/experiments.py` (not under `src/`); the spec fixes the enumerated set
as `even` and `stratified`. -/
def sampling_options : List String := ["even", "stratified"]

/-- `xs.issubset ys` for lists of strings (the schema checks
`games.issubset(VALID_GAMES)` and `LABELS.issuperset(non_nlp_features)`). -/
def listSubset (xs ys : List String) : Bool :=
  xs.all (fun x => ys.contains x)

/-- Modelled from the spec: `validate_bin_ranges` from `src/datasets.py` (not
under `src/`): bin ranges are ordered, non-overlapping `(min, max)` pairs;
the validator returns `None` exactly when they are valid.  Here: each pair is
increasing and consecutive pairs do not overlap. -/
def validate_bin_ranges : List (Rat × Rat) → Bool
  | [] => true
  | [p] => p.1 < p.2
  | p :: q :: rest => (p.1 < p.2 && p.2 ≤ q.1) && validate_bin_ranges (q :: rest)

/-- The raw keyword arguments of `CVConfig.__init__`
(src/util/cv_learn.py:103-122).  Parameters whose Python default is `None`
(or that the caller may omit) are `Option`s: `CVConfig.__init__` deletes
`None`-valued entries from the parameter dictionary before schema validation,
so an absent key and a `None` argument coincide.  The `db` handle carries no
validated content and is omitted.  A parameter grid is a map from parameter
names to lists of candidate values (the concrete values never matter to the
claims; they are kept as integers). -/
structure CVParams where
  games : List String
  learners : List String
  param_grids : List (List (String × List Int))
  training_rounds : Int
  training_samples_per_round : Int
  grid_search_samples_per_fold : Int
  non_nlp_features : List String
  prediction_label : String
  objective : Option String := none
  data_sampling : Option String := none
  grid_search_folds : Option Int := none
  hashed_features : Option Int := none
  nlp_features : Option Bool := none
  bin_ranges : Option (List (Rat × Rat)) := none
  lognormal : Option Bool := none
  power_transform : Option Rat := none
  majority_baseline : Option Bool := none
  rescale : Option Bool := none
deriving Repr, DecidableEq

/-- The validated configuration dictionary `self.validated` produced by
`exp_schema.validate` (src/util/cv_learn.py:208-246): every defaulted key is
resolved (`data_sampling` to `even`, `grid_search_folds` to `5`,
`nlp_features`/`majority_baseline`/`rescale` to `True`, `lognormal` to
`False`), while `objective`, `hashed_features`, `bin_ranges` and
`power_transform` keep `None` as a possible value. -/
structure CVValidated where
  games : List String
  learners : List String
  param_grids : List (List (String × List Int))
  training_rounds : Int
  training_samples_per_round : Int
  grid_search_samples_per_fold : Int
  non_nlp_features : List String
  prediction_label : String
  objective : Option String
  data_sampling : String
  grid_search_folds : Int
  hashed_features : Option Int
  nlp_features : Bool
  bin_ranges : Option (List (Rat × Rat))
  lognormal : Bool
  power_transform : Option Rat
  majority_baseline : Bool
  rescale : Bool
deriving Repr, DecidableEq

/-- The per-key checks of `exp_schema` (src/util/cv_learn.py:208-242), in the
order the schema lists its keys, reporting the first offending key, or `none`
when every check passes.  A key declared with `Default(...)` validates its
value only when the key is present; an absent key receives the default
unvalidated (this is how an unspecified `objective` stays `None` even though
`None` is not in `OBJ_FUNC_ABBRS_DICT`). -/
def exp_schema_first_failure (p : CVParams) : Option String :=
  if !(listSubset p.games VALID_GAMES) then some ("schema key: games")
  else if !(p.learners.all (fun learner => LEARNER_DICT_KEYS.contains learner)) then
    some ("schema key: learners")
  else if !(p.training_rounds > 1 : Bool) then some ("schema key: training_rounds")
  else if !(p.training_samples_per_round > 0 : Bool) then
    some ("schema key: training_samples_per_round")
  else if !(p.grid_search_samples_per_fold > 1 : Bool) then
    some ("schema key: grid_search_samples_per_fold")
  else if !(listSubset p.non_nlp_features LABELS) then
    some ("schema key: non_nlp_features")
  else if !(LABELS.contains p.prediction_label
            && !(p.non_nlp_features.contains p.prediction_label)) then
    some ("schema key: prediction_label")
  else if !(match p.objective with
            | none => true
            | some s => OBJ_FUNC_ABBRS_KEYS.contains s) then
    some ("schema key: objective")
  else if !(match p.data_sampling with
            | none => true
            | some s => sampling_options.contains s) then
    some ("schema key: data_sampling")
  else if !(match p.grid_search_folds with
            | none => true
            | some n => n > 1) then
    some ("schema key: grid_search_folds")
  else if !(match p.hashed_features with
            | none => true
            | some n => n > -1) then
    some ("schema key: hashed_features")
  else if !(match p.bin_ranges with
            | none => true
            | some bs => validate_bin_ranges bs) then
    some ("schema key: bin_ranges")
  else if !(match p.power_transform with
            | none => true
            | some x => x ≠ 0) then
    some ("schema key: power_transform")
  else none

/-- The validated dictionary built from accepted parameters: input values
unchanged, absent defaulted keys resolved (`data_sampling` to `even`,
`grid_search_folds` to `5`, the three boolean flags to their defaults). -/
def mk_validated (p : CVParams) : CVValidated :=
  { games := p.games
    learners := p.learners
    param_grids := p.param_grids
    training_rounds := p.training_rounds
    training_samples_per_round := p.training_samples_per_round
    grid_search_samples_per_fold := p.grid_search_samples_per_fold
    non_nlp_features := p.non_nlp_features
    prediction_label := p.prediction_label
    objective := p.objective
    data_sampling := p.data_sampling.getD ("even")
    grid_search_folds := p.grid_search_folds.getD 5
    hashed_features := p.hashed_features
    nlp_features := p.nlp_features.getD true
    bin_ranges := p.bin_ranges
    lognormal := p.lognormal.getD false
    power_transform := p.power_transform
    majority_baseline := p.majority_baseline.getD true
    rescale := p.rescale.getD true }

/-- The schema validation step of `CVConfig.__init__`
(src/util/cv_learn.py:244-252): the first failing check aborts construction
with its error; otherwise the fully-defaulted dictionary is produced. -/
def exp_schema_validate (p : CVParams) : Except String CVValidated :=
  match exp_schema_first_failure p with
  | some e => .error e
  | none => .ok (mk_validated p)

/-- Default width substituted for `hashed_features == 0`:
`CVConfig._n_features_feature_hashing = 2 ** 18` (src/util/cv_learn.py:101). -/
def _n_features_feature_hashing : Int := 2 ^ 18

/-- Error string of the first learners/param-grids length check
(src/util/cv_learn.py:268-271); the doubled `of of` is verbatim from the
source. -/
def length_mismatch_msg_first : String :=
  "The lists of of learners and parameter grids must be the same size."

/-- Error string of the second learners/param-grids length check
(src/util/cv_learn.py:279-283). -/
def length_mismatch_msg_second : String :=
  "The \"learners\" and \"param_grids\" parameters were both set and the lengths of the lists are unequal."

/-- Error string of the lognormal/power-transform mutual-exclusivity check
(src/util/cv_learn.py:275-278). -/
def mutual_exclusivity_msg : String :=
  "Both \"lognormal\" and \"power_transform\" were set simultaneously."

/-- The in-place rewrite of `self.validated` at src/util/cv_learn.py:272-274:
a `hashed_features` value equal to `0` (and not `None`) is replaced by the
default feature-hashing width. -/
def hashed_features_setup (v : CVValidated) : CVValidated :=
  if v.hashed_features = some 0
  then { v with hashed_features := some _n_features_feature_hashing }
  else v

/-- `CVConfig._further_validate_and_setup` (src/util/cv_learn.py:257-283), in
source order: first length check, rewrite of `hashed_features == 0` to the
default width, mutual-exclusivity check (a nonzero float is truthy, so the
Python truthiness test on `power_transform` is `isSome` on the validated
value), second length check.  The checks after the rewrite read the rewritten
dictionary. -/
def _further_validate_and_setup (v : CVValidated) : Except String CVValidated :=
  if v.learners.length ≠ v.param_grids.length then .error length_mismatch_msg_first
  else if (hashed_features_setup v).lognormal
          && (hashed_features_setup v).power_transform.isSome then
    .error mutual_exclusivity_msg
  else if (hashed_features_setup v).learners.length
          ≠ (hashed_features_setup v).param_grids.length then
    .error length_mismatch_msg_second
  else .ok (hashed_features_setup v)

/-- `CVConfig.__init__` (src/util/cv_learn.py:103-255): schema validation
followed by `_further_validate_and_setup`.  No datastore access happens in
either step. -/
def CVConfig_init (p : CVParams) : Except String CVValidated :=
  (exp_schema_validate p).bind _further_validate_and_setup

/-- Observable datastore interactions of the construction pipeline. -/
inductive Effect where
  | sample_data
deriving Repr, DecidableEq

/-- `RunCVExperiments._default_cursor_batch_size` (src/util/cv_learn.py:293). -/
def _default_cursor_batch_size : Int := 50

/-- The cursor batch size computed in `RunCVExperiments.__init__`
(src/util/cv_learn.py:340-343): the requested samples-per-round when below
the fixed cap, else the cap. -/
def _batch_size (training_samples_per_round : Int) : Int :=
  if training_samples_per_round < _default_cursor_batch_size
  then training_samples_per_round
  else _default_cursor_batch_size

/-- Error string raised for an empty game set
(src/util/cv_learn.py:313-314). -/
def games_empty_msg : String := "The set of games must be greater than zero!"

/-- Python `repr`-style rendering of the objective used when formatting the
unrecognized-objective message. -/
def objectiveString : Option String → String
  | none => "None"
  | some s => s

/-- The membership test `self._cfg.objective in OBJ_FUNC_ABBRS_DICT`
(src/util/cv_learn.py:334): dictionary keys are strings, so `None` is never a
member. -/
def objective_in_dict : Option String → Bool
  | none => false
  | some s => OBJ_FUNC_ABBRS_KEYS.contains s

/-- The unrecognized-objective error message (src/util/cv_learn.py:335-337),
with the two format slots filled the way `str.format` fills them. -/
def unrecognized_objective_msg (o : Option String) : String :=
  "Unrecognized objective function used: " ++ objectiveString o ++
  ". These are the available objective functions: " ++
  String.intercalate (", ") OBJ_FUNC_ABBRS_KEYS ++ "."

/-- The prefix of `RunCVExperiments.__init__` up to the first datastore access
(src/util/cv_learn.py:310-347), keeping the two guards and the sequencing the
claims are about: the empty-game-set check (line 313), then the
objective-membership check (line 334), then the batch-size computation (line
340), and only then the call into `ExperimentalData` that samples data (line
347, emitted here as an effect).  The returned integer is the computed cursor
batch size; the effect list records the datastore interactions performed. -/
def RunCVExperiments_init_head (v : CVValidated) :
    Except String Int × List Effect :=
  if v.games.isEmpty then (.error games_empty_msg, [])
  else if !(objective_in_dict v.objective) then
    (.error (unrecognized_objective_msg v.objective), [])
  else
    (.ok (_batch_size v.training_samples_per_round), [Effect.sample_data])

/-- Constructing the experiment end to end: `CVConfig` first, and
`RunCVExperiments` only from a successfully validated configuration (the
`main` function of src/util/cv_learn.py:1131-1152 builds them in exactly this
order).  A configuration error therefore produces an empty effect trace: no
sampling and no database query happens before it is raised. -/
def build_experiment (p : CVParams) : Except String (CVValidated × Int) × List Effect :=
  match CVConfig_init p with
  | .error e => (.error e, [])
  | .ok v =>
    match RunCVExperiments_init_head v with
    | (.error e, fx) => (.error e, fx)
    | (.ok bs, fx) => (.ok (v, bs), fx)

/-! ### Objective-function dispatch -/

/-- Kappa weighting schemes passed to `skll.metrics.kappa` via
`make_scorer`. -/
inductive KappaWeights where
  | unweighted
  | linear
  | quadratic
deriving Repr, DecidableEq

/-- The value `_resolve_objective_function` returns for the `scoring`
parameter of `GridSearchCV`: `None`, a scorer built by `make_scorer`, or the
objective string itself. -/
inductive Scorer where
  | noScoring
  | pearson
  | kappaScorer (weights : KappaWeights) (allow_off_by_one : Bool)
  | named (s : String)
deriving Repr, DecidableEq

/-- Character-list test used to model the Python string method
`str.startswith`: the first list is the candidate leading segment, the second
the character data of the tested string. -/
def charsLeadingSegment : List Char → List Char → Bool
  | [], _ => true
  | _ :: _, [] => false
  | a :: as, b :: bs => a == b && charsLeadingSegment as bs

/-- Python `s.startswith(p)` over the character data of the two strings. -/
def pyStartswith (s p : String) : Bool :=
  charsLeadingSegment p.data s.data

/-- `RunCVExperiments._resolve_objective_function`
(src/util/cv_learn.py:400-436), branch for branch in source order, including
the fourth branch (quadratic weights) whose guard repeats the `lwk`
startswith test of the third branch.  An unset or empty objective is falsy
and yields no scoring value. -/
def _resolve_objective_function (objective : Option String) : Scorer :=
  match objective with
  | none => .noScoring
  | some s =>
    if s = "" then .noScoring
    else if s = "pearson_r" then .pearson
    else if pyStartswith s ("uwk") then
      (if s = "uwk" then .kappaScorer .unweighted false
       else .kappaScorer .unweighted true)
    else if pyStartswith s ("lwk") then
      (if s = "lwk" then .kappaScorer .linear false
       else .kappaScorer .linear true)
    else if pyStartswith s ("lwk") then
      (if s = "lwk" then .kappaScorer .quadratic false
       else .kappaScorer .quadratic true)
    else .named s

/-! ### Vectorizer construction -/

/-- The two vectorizer kinds `_make_vectorizer` can build. -/
inductive Vectorizer where
  | featureHasher (n_features : Int) (non_negative : Bool)
  | dictVectorizer (sparse : Bool)
deriving Repr, DecidableEq

/-- Error string for a non-positive hashed-feature count
(src/util/cv_learn.py:481-483). -/
def hashed_features_value_msg : String :=
  "The value of \"hashed_features\" should be a positive integer, preferably a very large integer."

/-- Error string for an empty id list (src/util/cv_learn.py:490). -/
def ids_empty_msg : String := "The \"ids\" parameter is empty."

/-- Python truthiness of the `hashed_features` argument as it reaches
`_make_vectorizer`: `None` and `0` are falsy, any other integer truthy. -/
def hashedTruthy : Option Int → Bool
  | none => false
  | some n => n ≠ 0

/-- `RunCVExperiments._make_vectorizer` (src/util/cv_learn.py:459-494): a
truthy `hashed_features` selects a `FeatureHasher` with that width (after a
positivity check), a falsy one selects a `DictVectorizer`; afterwards an
empty id list is rejected.  (The subsequent `fit` only consumes samples and
returns the vectorizer unchanged.) -/
def _make_vectorizer (hashed_features : Option Int) (ids : List String) :
    Except String Vectorizer :=
  match (if hashedTruthy hashed_features then
           (if hashed_features.getD 0 < 1 then .error hashed_features_value_msg
            else .ok (Vectorizer.featureHasher (hashed_features.getD 0) true))
         else .ok (Vectorizer.dictVectorizer true) : Except String Vectorizer) with
  | .error e => .error e
  | .ok vec => if ids.isEmpty then .error ids_empty_msg else .ok vec

/-! ### Grid-search round: fold-count precondition -/

/-- The message of the fatal fold-count error (src/util/cv_learn.py:599-604);
the source text is kept up to apostrophes and the escaped percent sign. -/
def grid_search_folds_msg : String :=
  "Either there were not enough folds after collecting data (via ExperimentalData) to do the grid search round or the number of folds had to be reduced to such a degree that it would mean a +25% reduction in the total number of folds used during the grid search round."

/-- The abort condition of the grid-search round
(src/util/cv_learn.py:596-598): `folds_diff = requested - realized` over
Python integers, and the test
`realized < 2 or folds_diff / requested > 0.25` with exact division (the
operands are small integers, for which float division decides the comparison
with `0.25` exactly). -/
def grid_search_precondition_fails (requested realized : Int) : Prop :=
  realized < 2 ∨ ((requested : Rat) - (realized : Rat)) / (requested : Rat) > 1/4

instance (requested realized : Int) :
    Decidable (grid_search_precondition_fails requested realized) := by
  unfold grid_search_precondition_fails
  infer_instance

/-- The per-learner loop of `RunCVExperiments._do_grid_search_round`
(src/util/cv_learn.py:586-616), modelled as a function of the requested fold
count (`self._cfg.grid_search_folds`), the realized fold count
(`self._data.grid_search_folds`) and the learner-name list.  Each iteration
first evaluates the fold-count precondition (the check sits inside the loop,
before the `GridSearchCV` construction) and raises the fatal error if it
fails; otherwise it fits a `GridSearchCV` for that learner (recorded by
appending the learner name to the list of fitted learners). -/
def _do_grid_search_round_loop (requested realized : Int) :
    List String → List String → List String × Option String
  | fitted, [] => (fitted, none)
  | fitted, learner :: rest =>
    if grid_search_precondition_fails requested realized then
      (fitted, some grid_search_folds_msg)
    else
      _do_grid_search_round_loop requested realized (fitted ++ [learner]) rest

/-- `_do_grid_search_round` restricted to the cited loop: starts with no
estimator fitted.  Returns the learners fitted (in order) and the fatal
error, if one was raised. -/
def _do_grid_search_round (requested realized : Int) (learner_names : List String) :
    List String × Option String :=
  _do_grid_search_round_loop requested realized [] learner_names

/-! ### Per-fold learner copies: the object store

`RunCVExperiments.__init__` builds `self._cv_learners` from
`copy(self._learner_gs_cv_dict[learner_name])` (src/util/cv_learn.py:377-382)
with `copy` = `copy.copy`, the shallow copy.  Python object semantics are
embedded as a store of references: a shallow copy allocates a fresh wrapper
object whose `best_estimator_` field holds the same reference as the
original, and an in-place incremental update (`partial_fit`,
src/util/cv_learn.py:653) advances the fitted state of the underlying
estimator object the wrapper points at. -/

/-- First-match association-list lookup with default `0` (object fields of
absent references never arise in the constructions below). -/
def lookupD (m : List (Nat × Nat)) (k : Nat) : Nat :=
  match m.find? (fun p => p.1 == k) with
  | some p => p.2
  | none => 0

/-- A store of Python objects relevant to `_cv_learners`: `nextRef` is the
next fresh reference, `best` maps a grid-search-result wrapper reference to
the reference of its `best_estimator_` attribute, and `est` maps an estimator
reference to its abstract fitted state (a counter advanced by each
incremental update). -/
structure Store where
  nextRef : Nat
  best : List (Nat × Nat)
  est : List (Nat × Nat)
deriving Repr, DecidableEq

/-- `copy.copy` applied to a grid-search-result wrapper: a fresh object whose
`best_estimator_` field is copied by reference (shallow copy copies the
instance dictionary, not the objects it points to). -/
def copyObj (s : Store) (r : Nat) : Store × Nat :=
  (⟨s.nextRef + 1, (s.nextRef, lookupD s.best r) :: s.best, s.est⟩, s.nextRef)

/-- One row of the comprehension at src/util/cv_learn.py:377-379: for the
fold being processed, copy the grid-search result of each learner in learner
order, threading the store. -/
def allocRow (s : Store) : List Nat → Store × List Nat
  | [] => (s, [])
  | g :: gs =>
    let c := copyObj s g
    let rest := allocRow c.1 gs
    (rest.1, c.2 :: rest.2)

/-- The full comprehension: one row per fold (`for _ in range(folds)`), rows
in fold order.  The later `dict(zip(names, zip(*rows)))` transposition makes
`self._cv_learners[name][fold] = rows[fold][index of name]`, so the rows are
returned fold-major exactly as allocated. -/
def allocFolds (s : Store) (gsRefs : List Nat) : Nat → Store × List (List Nat)
  | 0 => (s, [])
  | f + 1 =>
    let row := allocRow s gsRefs
    let rest := allocFolds row.1 gsRefs f
    (rest.1, row.2 :: rest.2)

/-- The slot of learner index `l` at fold `f` after the transposition:
`rows[f][l]`. -/
def slotRef (rows : List (List Nat)) (l f : Nat) : Nat :=
  (rows.getD f []).getD l 0

/-- An incremental update applied through a wrapper slot
(src/util/cv_learn.py:653): the state that `partial_fit` mutates lives in the
underlying estimator object, so the store entry advanced is the one that the
`best_estimator_` reference of the wrapper points at. -/
def incremental_fit (s : Store) (wref : Nat) : Store :=
  { s with est := (lookupD s.best wref, lookupD s.est (lookupD s.best wref) + 1) :: s.est }

/-- The fitted state observable through a wrapper slot. -/
def observedState (s : Store) (wref : Nat) : Nat :=
  lookupD s.est (lookupD s.best wref)

/-! ### Incremental training cross-validation -/

/-- The tags carried by one stats record emitted at
src/util/cv_learn.py:693-709: the learner name, the fold index `i` the record
is tagged with, and `len(y_train_all)`, the number of training samples
accumulated for that fold.  (The remaining arguments of
`evaluate_predictions_from_learning_round` are metric inputs and constant
configuration echoes that the claims do not constrain.) -/
structure StatsRecord where
  learner_name : String
  fold_index : Nat
  num_training_samples : Nat
deriving Repr, DecidableEq

/-- NameError message raised by the first statement of the training loop
body. -/
def name_error_self_data : String := "NameError: name self_data is not defined"

/-- Faithful model of the outer loop of
`RunCVExperiments._do_training_cross_validation`
(src/util/cv_learn.py:618-713).  The first statement of the loop body
evaluates `self._data.training_set[:i] + self_data.training_set[i + 1:]`
(line 637), and the name `self_data` is bound nowhere, so the very first
iteration raises `NameError` before any sample is generated, any estimator
updated, or any stats record appended.  An empty training set skips the loop
body and leaves the per-learner stats lists (initialized at line 387 as one
empty list per learner) untouched. -/
def _do_training_cross_validation (learner_names : List String)
    (training_set : List (List String)) : Except String (List (List StatsRecord)) :=
  match training_set with
  | [] => .ok (learner_names.map (fun _ => []))
  | _ :: _ => .error name_error_self_data

/-- `training_set[:i] + training_set[i + 1:]` (src/util/cv_learn.py:637 as
evidently intended). -/
def training_folds_at (training_set : List (List String)) (i : Nat) :
    List (List String) :=
  training_set.take i ++ training_set.drop (i + 1)

/-- The accumulator `y_train_all` at the end of the inner loop of fold `i`:
it is reset to `[]` at the top of each outer iteration
(src/util/cv_learn.py:638) and extended with the labels of each non-held-out
fold in fold order (line 647); `y` gives the label of an id, as
`_generate_samples(fold, "y")` would. -/
def y_train_all_at (y : String → Int) (training_set : List (List String))
    (i : Nat) : List Int :=
  (training_folds_at training_set i).foldl (fun acc fold => acc ++ fold.map y) []

/-- Modelled from the evident intent of `_do_training_cross_validation`
(src/util/cv_learn.py:618-713): the unbound name `self_data` at line 637 read
as `self._data` (the only similar binding in scope), and `_generate_samples`
(line 514) taken as the instance method that its docstring and all six call
sites assume.  For each fold index `i` (in order), one stats record per
learner is appended to the stats list of that learner, tagged with the fold
index `i` and with `len(y_train_all)` — the label count accumulated from the
non-held-out folds of this iteration only.  Vectorization, partial fitting,
prediction, rescaling and metric computation do not influence these tags and
are not carried. -/
def _do_training_cross_validation_intended (y : String → Int)
    (learner_names : List String) (training_set : List (List String)) :
    List (List StatsRecord) :=
  (List.range training_set.length).foldl
    (fun stats i =>
      (stats.zip learner_names).map
        (fun p => p.1 ++ [⟨p.2, i, (y_train_all_at y training_set i).length⟩]))
    (learner_names.map (fun _ => []))

/-! ### Majority baseline -/

/-- Python `max(iterable, key=...)` specialized to
`max(set(y_all), key=y_all.count)` (src/util/cv_learn.py:723): scan the
deduplicated pool keeping the current item unless a later item has a strictly
greater count, so the first maximal item of the enumeration wins ties. -/
def pyMaxByCount (y_all : List Int) : Option Int → List Int → Option Int
  | acc, [] => acc
  | none, v :: rest => pyMaxByCount y_all (some v) rest
  | some m, v :: rest =>
    pyMaxByCount y_all (some (if y_all.count v > y_all.count m then v else m)) rest

/-- `RunCVExperiments._get_majority_baseline` (src/util/cv_learn.py:715-724):
the majority label is `max(set(self._y_all), key=self._y_all.count)` and the
returned array is that label repeated `len(self._y_all)` times.  `set(y_all)`
is modelled as the deduplicated value list; the enumeration order of a
CPython set is an implementation detail, and no theorem below depends on the
order chosen here.  `max` of an empty pool raises, hence the `Option`. -/
def _get_majority_baseline (y_all : List Int) : Option (Int × List Int) :=
  match pyMaxByCount y_all none y_all.dedup with
  | none => none
  | some m => some (m, List.replicate y_all.length m)

/-! ### Concrete scenario inputs -/

/-- A concrete, fully schema-valid parameter set matching the configuration
scenario of the spec: two learners with two aligned one-element parameter
grids, three training rounds of fifty samples each, one hundred grid-search
samples per fold, five grid-search folds (the default), the playtime-bin
prediction label, no non-NLP features, and rescaling enabled. -/
def baseParams : CVParams :=
  { games := ["Dota_2"]
    learners := ["BernoulliNB", "Perceptron"]
    param_grids := [[("alpha", [1])], [("penalty", [0])]]
    training_rounds := 3
    training_samples_per_round := 50
    grid_search_samples_per_fold := 100
    non_nlp_features := []
    prediction_label := "total_game_hours_bin"
    objective := some ("qwk")
    rescale := some true }

/-- The validated configuration that `CVConfig` produces from `baseParams`
(parameterized by the objective value, for reuse by the scenario that omits
the objective). -/
def baseValidated (obj : Option String) : CVValidated :=
  { games := ["Dota_2"]
    learners := ["BernoulliNB", "Perceptron"]
    param_grids := [[("alpha", [1])], [("penalty", [0])]]
    training_rounds := 3
    training_samples_per_round := 50
    grid_search_samples_per_fold := 100
    non_nlp_features := []
    prediction_label := "total_game_hours_bin"
    objective := obj
    data_sampling := "even"
    grid_search_folds := 5
    hashed_features := none
    nlp_features := true
    bin_ranges := none
    lognormal := false
    power_transform := none
    majority_baseline := true
    rescale := true }

/-- `baseParams` with a hashed-feature width. -/
def c4_params (n : Int) : CVParams := { baseParams with hashed_features := some n }

/-- The validated dictionary of the `hashed_features=0` scenario as it stands
right after schema validation, before the default rewrite. -/
def c4_validated_hashed0 : CVValidated :=
  { baseValidated (some ("qwk")) with hashed_features := some 0 }

/-- `baseParams` with `lognormal=True` and `power_transform=2.0` (the
mutual-exclusivity scenario). -/
def c5_params : CVParams :=
  { baseParams with lognormal := some true, power_transform := some 2 }

/-- The validated dictionary that schema validation produces from
`c5_params`. -/
def c5_validated : CVValidated :=
  { baseValidated (some ("qwk")) with lognormal := true, power_transform := some 2 }

/-- `c5_params` with the learners/param-grids length invariant additionally
violated (two learners, one grid): still schema-valid, with both mutually
exclusive transforms set. -/
def c5_bad_params : CVParams :=
  { c5_params with param_grids := [[("alpha", [1])]] }

/-- `baseParams` with two learners but a single parameter grid (a
length-mismatch violation that still passes the schema, whose grid check is
purely structural). -/
def c6_params : CVParams := { baseParams with param_grids := [[("alpha", [1])]] }

/-- `baseParams` with the objective left unspecified, so that the schema
default `None` is inserted without validation. -/
def c10_params : CVParams := { baseParams with objective := none }

/-- `c10_params` with an empty game set — still schema-valid, since the empty
set is a subset of `VALID_GAMES`. -/
def c10_empty_games_params : CVParams :=
  { baseParams with objective := none, games := [] }

/-- The learner names of the spec scenario. -/
def scenario_learner_names : List String := ["BernoulliNB", "Perceptron"]

/-- The training set of the spec scenario: three folds
(`training_rounds = 3`) of fifty review ids each
(`training_samples_per_round = 50`), pairwise distinct. -/
def scenario_training_set : List (List String) :=
  (List.range 3).map
    (fun f => (List.range 50).map (fun k => "f" ++ toString f ++ "r" ++ toString k))

/-- The store after the grid-search round, for one learner: wrapper object
`0` is the grid-search result (`_learner_gs_cv_dict` entry), its
`best_estimator_` is estimator object `100`, whose fitted state is `3`; the
next fresh reference is `1`. -/
def gs_store : Store := ⟨1, [(0, 100)], [(100, 3)]⟩

/-- The `_cv_learners` construction of src/util/cv_learn.py:377-382 applied
to `gs_store` with one learner and two training folds. -/
def c2_build : Store × List (List Nat) := allocFolds gs_store [0] 2

/-! ## Helper lemmas -/

theorem pyMaxByCount_keeps (ys : List Int) (v : Int) :
    ∀ rest : List Int, (∀ w ∈ rest, w ≠ v → ys.count w < ys.count v) →
      pyMaxByCount ys (some v) rest = some v := by
  intro rest
  induction rest with
  | nil => intro _; rfl
  | cons w t ih =>
    intro h
    have hkeep : ¬ (ys.count w > ys.count v) := by
      by_cases hw : w = v
      · subst hw; omega
      · have := h w (List.mem_cons_self w t) hw; omega
    show pyMaxByCount ys (some (if ys.count w > ys.count v then w else v)) t = some v
    rw [if_neg hkeep]
    exact ih (fun u hu hne => h u (List.mem_cons_of_mem w hu) hne)

theorem pyMaxByCount_reaches (ys : List Int) (v : Int) :
    ∀ (rest : List Int) (acc : Option Int), v ∈ rest →
      (∀ w ∈ rest, w ≠ v → ys.count w < ys.count v) →
      (acc = none ∨ ∃ m, acc = some m ∧ (m = v ∨ ys.count m < ys.count v)) →
      pyMaxByCount ys acc rest = some v := by
  intro rest
  induction rest with
  | nil => intro acc hv _ _; cases hv
  | cons w t ih =>
    intro acc hv h hacc
    have hrest : ∀ u ∈ t, u ≠ v → ys.count u < ys.count v :=
      fun u hu hne => h u (List.mem_cons_of_mem w hu) hne
    rcases hacc with rfl | ⟨m, rfl, hm⟩
    · show pyMaxByCount ys (some w) t = some v
      by_cases hw : w = v
      · rw [hw]
        exact pyMaxByCount_keeps ys v t hrest
      · have hv2 : v ∈ t := by
          rcases List.mem_cons.mp hv with h1 | h1
          · exact absurd h1.symm hw
          · exact h1
        exact ih (some w) hv2 hrest
          (Or.inr ⟨w, rfl, Or.inr (h w (List.mem_cons_self w t) hw)⟩)
    · show pyMaxByCount ys (some (if ys.count w > ys.count m then w else m)) t = some v
      by_cases hw : w = v
      · rw [hw]
        rcases hm with hm | hm
        · rw [hm, if_neg (by omega)]
          exact pyMaxByCount_keeps ys v t hrest
        · rw [if_pos (by omega)]
          exact pyMaxByCount_keeps ys v t hrest
      · have hv2 : v ∈ t := by
          rcases List.mem_cons.mp hv with h1 | h1
          · exact absurd h1.symm hw
          · exact h1
        have hwlt : ys.count w < ys.count v := h w (List.mem_cons_self w t) hw
        by_cases hc : ys.count w > ys.count m
        · rw [if_pos hc]
          exact ih (some w) hv2 hrest (Or.inr ⟨w, rfl, Or.inr hwlt⟩)
        · rw [if_neg hc]
          exact ih (some m) hv2 hrest (Or.inr ⟨m, rfl, hm⟩)

/-- Schema validation copies every field it accepts: the value it hands to
`_further_validate_and_setup` carries the input values unchanged (defaults
aside). -/
theorem schema_ok_fields {p : CVParams} {v : CVValidated}
    (h : exp_schema_validate p = .ok v) :
    v.games = p.games ∧ v.learners = p.learners ∧
    v.param_grids = p.param_grids ∧ v.objective = p.objective ∧
    v.hashed_features = p.hashed_features ∧
    v.lognormal = p.lognormal.getD false ∧
    v.power_transform = p.power_transform := by
  unfold exp_schema_validate at h
  cases hf : exp_schema_first_failure p with
  | some e => rw [hf] at h; exact Except.noConfusion h
  | none =>
    rw [hf] at h
    cases h
    exact ⟨rfl, rfl, rfl, rfl, rfl, rfl, rfl⟩

/-- Field behavior of the hashed-features rewrite: only `hashed_features`
changes, and only from `some 0` to the default width. -/
theorem hashed_features_setup_fields (v : CVValidated) :
    (hashed_features_setup v).games = v.games ∧
    (hashed_features_setup v).learners = v.learners ∧
    (hashed_features_setup v).param_grids = v.param_grids ∧
    (hashed_features_setup v).objective = v.objective ∧
    (hashed_features_setup v).hashed_features =
      (if v.hashed_features = some 0 then some _n_features_feature_hashing
       else v.hashed_features) ∧
    (hashed_features_setup v).lognormal = v.lognormal ∧
    (hashed_features_setup v).power_transform = v.power_transform := by
  unfold hashed_features_setup
  split_ifs <;> exact ⟨rfl, rfl, rfl, rfl, rfl, rfl, rfl⟩

/-- A successful `_further_validate_and_setup` returns exactly the rewritten
dictionary. -/
theorem further_ok_inv {v v2 : CVValidated}
    (h : _further_validate_and_setup v = .ok v2) :
    v2 = hashed_features_setup v := by
  unfold _further_validate_and_setup at h
  split_ifs at h
  cases h
  rfl

/-- A successful `CVConfig` construction factors into a successful schema
validation followed by a successful further-validation step. -/
theorem CVConfig_init_ok_inv {p : CVParams} {v : CVValidated}
    (h : CVConfig_init p = .ok v) :
    ∃ w, exp_schema_validate p = .ok w ∧ _further_validate_and_setup w = .ok v := by
  unfold CVConfig_init at h
  cases hs : exp_schema_validate p with
  | error e => rw [hs] at h; simp [Except.bind] at h
  | ok w =>
    rw [hs] at h
    simp only [Except.bind] at h
    exact ⟨w, rfl, h⟩

/-- On the scenario family `c4_params n`, every schema check other than the
hashed-features one is concrete and passes, so the first-failure computation
reduces to the hashed-features check alone. -/
theorem c4_first_failure_eq (n : Int) :
    exp_schema_first_failure (c4_params n) =
      (if !(n > -1 : Bool) then some ("schema key: hashed_features") else none) := rfl

/-- Reduction of the objective dispatch on a present objective string. -/
theorem resolve_some_eq (s : String) :
    _resolve_objective_function (some s) =
      (if s = "" then Scorer.noScoring
       else if s = "pearson_r" then Scorer.pearson
       else if pyStartswith s ("uwk") = true then
         (if s = "uwk" then Scorer.kappaScorer KappaWeights.unweighted false
          else Scorer.kappaScorer KappaWeights.unweighted true)
       else if pyStartswith s ("lwk") = true then
         (if s = "lwk" then Scorer.kappaScorer KappaWeights.linear false
          else Scorer.kappaScorer KappaWeights.linear true)
       else if pyStartswith s ("lwk") = true then
         (if s = "lwk" then Scorer.kappaScorer KappaWeights.quadratic false
          else Scorer.kappaScorer KappaWeights.quadratic true)
       else Scorer.named s) := rfl

/-- Helper for C3: when the fold-count precondition holds, the grid-search
loop fits every learner in order and raises no error. -/
theorem grid_search_loop_all_fit (requested realized : Int)
    (hok : ¬ grid_search_precondition_fails requested realized) :
    ∀ (names fitted : List String),
      _do_grid_search_round_loop requested realized fitted names =
        (fitted ++ names, none) := by
  intro names
  induction names with
  | nil => intro fitted; simp [_do_grid_search_round_loop]
  | cons a t ih =>
    intro fitted
    show (if grid_search_precondition_fails requested realized
          then (fitted, some grid_search_folds_msg)
          else _do_grid_search_round_loop requested realized (fitted ++ [a]) t) =
        (fitted ++ a :: t, none)
    rw [if_neg hok, ih (fitted ++ [a])]
    simp

/-! ## Claim theorems -/

/-- C9: for every requested training-samples-per-round value, the datastore
cursor batch size computed by `RunCVExperiments.__init__`
(src/util/cv_learn.py:340-343) equals the minimum of the requested value and
the fixed cap 50. -/
theorem C9_batch_size_is_min (n : Int) : _batch_size n = min n 50 := by
  unfold _batch_size _default_cursor_batch_size
  rcases lt_or_le n 50 with h | h
  · rw [if_pos h, min_eq_left h.le]
  · rw [if_neg (not_lt.mpr h), min_eq_right h]

/-- C5 (amended): for every configuration with `lognormal=True` and a
nonzero `power_transform` that passes schema validation and satisfies the
learners/param-grids length invariant, construction fails with the
mutual-exclusivity validation error of `_further_validate_and_setup`
(src/util/cv_learn.py:275-278), and the effect trace is empty: no sampling
happens and no database query is issued before the error is raised.
(Configurations that additionally violate the length invariant fail with the
earlier length error instead — see the counterexample.) -/
theorem C5_mutual_exclusivity_universal (p : CVParams) (v : CVValidated)
    (x : Rat) (hlog : p.lognormal = some true) (hpow : p.power_transform = some x)
    (hs : exp_schema_validate p = .ok v)
    (hlen : v.learners.length = v.param_grids.length) :
    build_experiment p = (.error mutual_exclusivity_msg, []) := by
  have hvlog : v.lognormal = true := by
    rw [(schema_ok_fields hs).2.2.2.2.2.1, hlog]
    rfl
  have hvpow : v.power_transform = some x := by
    rw [(schema_ok_fields hs).2.2.2.2.2.2, hpow]
  have hcond : ((hashed_features_setup v).lognormal
      && (hashed_features_setup v).power_transform.isSome) = true := by
    rw [(hashed_features_setup_fields v).2.2.2.2.2.1,
        (hashed_features_setup_fields v).2.2.2.2.2.2, hvlog, hvpow]
    rfl
  have hcfg : CVConfig_init p = .error mutual_exclusivity_msg := by
    unfold CVConfig_init
    rw [hs]
    show _further_validate_and_setup v = .error mutual_exclusivity_msg
    unfold _further_validate_and_setup
    rw [if_neg (fun hne => hne hlen), if_pos hcond]
  unfold build_experiment
  rw [hcfg]

/-- Witness for C5 at the concrete scenario configuration (`lognormal=True`,
`power_transform=2.0`, two aligned grids): construction fails with the
mutual-exclusivity error and an empty effect trace. -/
theorem C5_mutual_exclusivity_witness :
    build_experiment c5_params = (.error mutual_exclusivity_msg, []) :=
  C5_mutual_exclusivity_universal c5_params c5_validated 2 rfl rfl rfl rfl

/-- C5 counterexample: a configuration with `lognormal=True` and
`power_transform=2.0` that additionally has two learners against one
parameter grid fails with the first length-check error
(src/util/cv_learn.py:268-271), not with the mutual-exclusivity error, so
the claim as stated does not hold of every such configuration (the
no-side-effects part still does: the effect trace is empty). -/
theorem C5_counterexample :
    build_experiment c5_bad_params = (.error length_mismatch_msg_first, []) ∧
    length_mismatch_msg_first ≠ mutual_exclusivity_msg := ⟨rfl, by decide⟩

/-- C1 counterexample: on the spec scenario (two learners, three training
folds of fifty ids), `_do_training_cross_validation` as written raises
`NameError` — its loop body evaluates the unbound name `self_data`
(src/util/cv_learn.py:637) on the very first iteration — so it appends zero
stats records per learner, not three. -/
theorem C1_counterexample :
    _do_training_cross_validation scenario_learner_names scenario_training_set =
      .error name_error_self_data := rfl

/-- C1 (amended): with the two evident slips repaired (`self_data` read as
`self._data`, `_generate_samples` as an instance method), the stage appends
exactly 3 stats records per learner, tagged with ascending fold indices
0, 1, 2; each record carries a training-sample count of 100 — the total size
of the two non-held-out folds — which is constant across folds rather than
strictly increasing, because the `y_train_all` accumulator resets at every
outer fold iteration (src/util/cv_learn.py:638). -/
theorem C1_stats_records_per_fold :
    _do_training_cross_validation_intended (fun _ => 1) scenario_learner_names
        scenario_training_set =
      [[⟨"BernoulliNB", 0, 100⟩, ⟨"BernoulliNB", 1, 100⟩, ⟨"BernoulliNB", 2, 100⟩],
       [⟨"Perceptron", 0, 100⟩, ⟨"Perceptron", 1, 100⟩, ⟨"Perceptron", 2, 100⟩]] := rfl

/-- C2 counterexample: with one learner and two folds, applying an
incremental update through the fold-0 slot of `_cv_learners` changes the
fitted state observed through the fold-1 slot (from 3 to 4): the slots are
shallow copies of one `GridSearchCV` wrapper (src/util/cv_learn.py:377) and
share its `best_estimator_` object, so the fold-1 estimator state does not
stay unchanged as the claim requires. -/
theorem C2_counterexample :
    observedState (incremental_fit c2_build.1 (slotRef c2_build.2 0 0))
        (slotRef c2_build.2 0 1) ≠
      observedState c2_build.1 (slotRef c2_build.2 0 1) := by decide

/-- C8: the majority-baseline evaluator (`_get_majority_baseline`,
src/util/cv_learn.py:715-724), given the full pool of observed true labels,
returns the label of strictly maximal frequency in the pool as the constant
prediction, repeated once per observed sample. -/
theorem C8_majority_baseline_strict_max (y_all : List Int) (v : Int)
    (hv : v ∈ y_all)
    (hmax : ∀ w ∈ y_all, w ≠ v → y_all.count w < y_all.count v) :
    _get_majority_baseline y_all = some (v, List.replicate y_all.length v) := by
  unfold _get_majority_baseline
  rw [pyMaxByCount_reaches y_all v y_all.dedup none (List.mem_dedup.mpr hv)
        (fun w hw hne => hmax w (List.mem_dedup.mp hw) hne) (Or.inl rfl)]

/-- Witness for C8 at the concrete pool `[3, 5, 5]`: the strictly most
frequent label 5 is predicted for all three observed samples. -/
theorem C8_majority_baseline_witness :
    _get_majority_baseline [3, 5, 5] = some (5, [5, 5, 5]) :=
  C8_majority_baseline_strict_max [3, 5, 5] 5 (by decide) (by decide)

/-- C4: schema validation accepts every non-negative hashed-feature width at
its stated value and rejects negative ones at validation time (reporting the
hashed-features key); the rewrite of `0` to the fixed default width
`2 ** 18 = 262144` happens only in `_further_validate_and_setup`
(src/util/cv_learn.py:272-274), after schema validation; and the value handed
to `_make_vectorizer` on the `hashed_features=0` scenario is the resolved
width 262144. -/
theorem C4_hashed_features_resolution :
    (∀ (p : CVParams) (v : CVValidated), exp_schema_validate p = .ok v →
        v.hashed_features = p.hashed_features) ∧
    (∀ n : Int, 0 ≤ n →
        exp_schema_validate (c4_params n) = .ok (mk_validated (c4_params n))) ∧
    (∀ n : Int, n < 0 →
        exp_schema_validate (c4_params n) = .error ("schema key: hashed_features")) ∧
    (∀ (v v2 : CVValidated), _further_validate_and_setup v = .ok v2 →
        v2.hashed_features = (if v.hashed_features = some 0
                              then some _n_features_feature_hashing
                              else v.hashed_features)) ∧
    _n_features_feature_hashing = 262144 ∧
    (∃ v, CVConfig_init (c4_params 0) = .ok v ∧
        v.hashed_features = some 262144 ∧
        _make_vectorizer v.hashed_features ["id0"] =
          .ok (.featureHasher 262144 true)) := by
  refine ⟨?_, ?_, ?_, ?_, rfl, ?_⟩
  · intro p v h
    exact (schema_ok_fields h).2.2.2.2.1
  · intro n hn
    have hd : (n > -1 : Bool) = true := decide_eq_true (by omega)
    unfold exp_schema_validate
    rw [c4_first_failure_eq n, hd]
    rfl
  · intro n hn
    have hd : (n > -1 : Bool) = false := decide_eq_false (by omega)
    unfold exp_schema_validate
    rw [c4_first_failure_eq n, hd]
    rfl
  · intro v v2 h
    rw [further_ok_inv h]
    exact (hashed_features_setup_fields v).2.2.2.2.1
  · exact ⟨hashed_features_setup (mk_validated (c4_params 0)), rfl, rfl, rfl⟩

/-- Witness for C4: the field-preservation, acceptance, rejection and rewrite
parts applied at concrete widths (0 preserved by the schema, 2 accepted, -1
rejected, 0 rewritten to the default width by the further-validation step). -/
theorem C4_hashed_features_witness :
    (baseValidated (some ("qwk"))).hashed_features = baseParams.hashed_features ∧
    exp_schema_validate (c4_params 2) = .ok (mk_validated (c4_params 2)) ∧
    exp_schema_validate (c4_params (-1)) = .error ("schema key: hashed_features") ∧
    (hashed_features_setup c4_validated_hashed0).hashed_features =
      (if c4_validated_hashed0.hashed_features = some 0
       then some _n_features_feature_hashing
       else c4_validated_hashed0.hashed_features) :=
  ⟨C4_hashed_features_resolution.1 baseParams (baseValidated (some ("qwk"))) rfl,
   C4_hashed_features_resolution.2.1 2 (by decide),
   C4_hashed_features_resolution.2.2.1 (-1) (by decide),
   C4_hashed_features_resolution.2.2.2.1 c4_validated_hashed0
     (hashed_features_setup c4_validated_hashed0) rfl⟩

/-- C6 (amended): `_further_validate_and_setup` checks the learners/param-
grids length twice — before and after the hashed-features default rewrite —
but the two checks carry different error strings; since the rewrite never
touches the two lists, a violation is always reported with the first
message (the second check can never fire), and every violating configuration
fails during configuration construction, with an empty effect trace: before
any sampling occurs. -/
theorem C6_length_checks :
    (∀ (p : CVParams) (v : CVValidated), exp_schema_validate p = .ok v →
        v.learners.length ≠ v.param_grids.length →
        build_experiment p = (.error length_mismatch_msg_first, [])) ∧
    (∀ (v : CVValidated) (e : String), _further_validate_and_setup v = .error e →
        e = length_mismatch_msg_first ∨ e = mutual_exclusivity_msg) ∧
    length_mismatch_msg_first ≠ length_mismatch_msg_second := by
  refine ⟨?_, ?_, by decide⟩
  · intro p v hs hne
    have hcfg : CVConfig_init p = .error length_mismatch_msg_first := by
      unfold CVConfig_init
      rw [hs]
      show _further_validate_and_setup v = .error length_mismatch_msg_first
      unfold _further_validate_and_setup
      rw [if_pos hne]
    unfold build_experiment
    rw [hcfg]
  · intro v e h
    unfold _further_validate_and_setup at h
    split_ifs at h with h1 h2 h3
    · injection h with hh
      exact Or.inl hh.symm
    · injection h with hh
      exact Or.inr hh.symm
    · exfalso
      rw [(hashed_features_setup_fields v).2.1,
          (hashed_features_setup_fields v).2.2.1] at h3
      exact h1 h3

/-- Witness for C6: the first length check fires on a concrete configuration
with two learners and one grid, before any sampling effect, and the raised
error is the first-check message. -/
theorem C6_length_checks_witness :
    build_experiment c6_params = (.error length_mismatch_msg_first, []) ∧
    (length_mismatch_msg_first = length_mismatch_msg_first ∨
     length_mismatch_msg_first = mutual_exclusivity_msg) :=
  ⟨C6_length_checks.1 c6_params
     { baseValidated (some ("qwk")) with param_grids := [[("alpha", [1])]] }
     rfl (by decide),
   C6_length_checks.2.1
     { baseValidated (some ("qwk")) with param_grids := [[("alpha", [1])]] }
     length_mismatch_msg_first rfl⟩

/-- C6 counterexample: at a concrete violating configuration (two learners,
one parameter grid) the violation is reported with the first-check error
string, and that string differs from the second-check string — the two
checks do not report a violation identically. -/
theorem C6_counterexample :
    CVConfig_init c6_params = .error length_mismatch_msg_first ∧
    length_mismatch_msg_first ≠ length_mismatch_msg_second := ⟨rfl, by decide⟩

/-- C10 (amended): for every CVConfig constructed without the objective
parameter (the schema default `None` is inserted without validation) and
whose game set is nonempty, constructing RunCVExperiments raises the
unrecognized-objective ValueError (src/util/cv_learn.py:334-337) with an
empty effect trace — before any data is sampled. -/
theorem C10_missing_objective_raises (p : CVParams) (v : CVValidated)
    (hobj : p.objective = none) (hcfg : CVConfig_init p = .ok v)
    (hg : v.games ≠ []) :
    RunCVExperiments_init_head v =
      (.error (unrecognized_objective_msg none), []) := by
  obtain ⟨w, hs, hf⟩ := CVConfig_init_ok_inv hcfg
  have hwobj : w.objective = p.objective := (schema_ok_fields hs).2.2.2.1
  have hvw : v = hashed_features_setup w := further_ok_inv hf
  have hvobj : v.objective = none := by
    rw [hvw, (hashed_features_setup_fields w).2.2.2.1, hwobj, hobj]
  rcases hvg : v.games with _ | ⟨a, t⟩
  · exact absurd hvg hg
  · unfold RunCVExperiments_init_head
    rw [hvg, hvobj]
    rfl

/-- Witness for C10: the configuration scenario without an objective, whose
validated form is `baseValidated none`, makes the experiment constructor
raise the unrecognized-objective error with no sampling effect. -/
theorem C10_missing_objective_witness :
    RunCVExperiments_init_head (baseValidated none) =
      (.error (unrecognized_objective_msg none), []) :=
  C10_missing_objective_raises c10_params (baseValidated none) rfl rfl
    (by decide)

/-- C10 counterexample: a CVConfig constructed without the objective but with
an empty (schema-valid) game set makes RunCVExperiments raise the
empty-game-set ValueError (src/util/cv_learn.py:313-314), not a ValueError
reporting an unrecognized objective function. -/
theorem C10_counterexample :
    build_experiment c10_empty_games_params = (.error games_empty_msg, []) ∧
    games_empty_msg ≠ unrecognized_objective_msg none := ⟨rfl, by decide⟩

/-- C3 (amended): provided at least one learner is configured, the
grid-search round aborts with the fatal fold-count error before any
estimator is fitted whenever the realized fold count is below 2 or the
shrinkage from the requested count exceeds 25% of it; otherwise — in
particular at the boundary requested = realized = 2 — the round proceeds and
fits every learner. -/
theorem C3_grid_search_fold_precondition :
    (∀ (requested realized : Int) (names : List String), names ≠ [] →
        grid_search_precondition_fails requested realized →
        _do_grid_search_round requested realized names =
          ([], some grid_search_folds_msg)) ∧
    (∀ (requested realized : Int) (names : List String),
        ¬ grid_search_precondition_fails requested realized →
        _do_grid_search_round requested realized names = (names, none)) ∧
    ¬ grid_search_precondition_fails 2 2 := by
  refine ⟨?_, ?_, ?_⟩
  · intro requested realized names hne hfail
    cases names with
    | nil => exact absurd rfl hne
    | cons a t =>
      show (if grid_search_precondition_fails requested realized
            then (([] : List String), some grid_search_folds_msg)
            else _do_grid_search_round_loop requested realized ([] ++ [a]) t) =
          ([], some grid_search_folds_msg)
      rw [if_pos hfail]
  · intro requested realized names hok
    have h := grid_search_loop_all_fit requested realized hok names []
    unfold _do_grid_search_round
    rw [h]
    simp
  · unfold grid_search_precondition_fails
    push_neg
    norm_num

/-- Witness for C3: with one learner, requested 5 folds realized as 3 (a 40%
shrinkage) abort before any fit; with two learners at the boundary
requested = realized = 2, both learners are fitted and no error is raised. -/
theorem C3_grid_search_fold_witness :
    _do_grid_search_round 5 3 ["BernoulliNB"] =
      ([], some grid_search_folds_msg) ∧
    _do_grid_search_round 2 2 ["BernoulliNB", "Perceptron"] =
      (["BernoulliNB", "Perceptron"], none) :=
  ⟨C3_grid_search_fold_precondition.1 5 3 ["BernoulliNB"] (by decide)
     (Or.inr (by norm_num)),
   C3_grid_search_fold_precondition.2.1 2 2 ["BernoulliNB", "Perceptron"]
     (by unfold grid_search_precondition_fails; push_neg; norm_num)⟩

/-- C3 counterexample: the fold-count check sits inside the per-learner loop
(src/util/cv_learn.py:586-606), so with a schema-valid empty learner list the
grid-search round returns without raising any fatal error even though the
realized fold count 3 against the requested 5 is a 40% shrinkage — the
experiment does not abort as the claim requires. -/
theorem C3_counterexample : _do_grid_search_round 5 3 [] = ([], none) := rfl

/-- C7: the objective dispatch of `_resolve_objective_function`
(src/util/cv_learn.py:400-436) sends every objective starting with `uwk` to
the unweighted kappa scorer (off-by-one tolerance unless it is exactly
`uwk`), every objective starting with `lwk` to the linear-weighted kappa
scorer (off-by-one tolerance unless exactly `lwk`), and never returns a
quadratic-weighted kappa scorer for any objective: the quadratic branch is
guarded by a duplicate `lwk` check and is unreachable. -/
theorem C7_objective_dispatch :
    (∀ s : String, pyStartswith s ("uwk") = true →
        _resolve_objective_function (some s) =
          (if s = "uwk" then .kappaScorer .unweighted false
           else .kappaScorer .unweighted true)) ∧
    (∀ s : String, pyStartswith s ("lwk") = true →
        _resolve_objective_function (some s) =
          (if s = "lwk" then .kappaScorer .linear false
           else .kappaScorer .linear true)) ∧
    (∀ (o : Option String) (b : Bool),
        _resolve_objective_function o ≠ .kappaScorer .quadratic b) := by
  refine ⟨?_, ?_, ?_⟩
  · intro s hs
    have hne : s ≠ "" := by
      intro h0; rw [h0] at hs; exact absurd hs (by decide)
    have hnp : s ≠ "pearson_r" := by
      intro h0; rw [h0] at hs; exact absurd hs (by decide)
    rw [resolve_some_eq s, if_neg hne, if_neg hnp, if_pos hs]
  · intro s hs
    have hne : s ≠ "" := by
      intro h0; rw [h0] at hs; exact absurd hs (by decide)
    have hnp : s ≠ "pearson_r" := by
      intro h0; rw [h0] at hs; exact absurd hs (by decide)
    have hnu : ¬ (pyStartswith s ("uwk") = true) := by
      intro hu
      rcases hd : s.data with _ | ⟨c, rest⟩
      · have hs2 : charsLeadingSegment ('l' :: 'w' :: 'k' :: []) s.data = true := hs
        rw [hd] at hs2
        exact absurd hs2 (by decide)
      · have hs2 : charsLeadingSegment ('l' :: 'w' :: 'k' :: []) s.data = true := hs
        have hu2 : charsLeadingSegment ('u' :: 'w' :: 'k' :: []) s.data = true := hu
        rw [hd] at hs2 hu2
        have hs3 : (('l' == c) && charsLeadingSegment ('w' :: 'k' :: []) rest) = true := hs2
        have hu3 : (('u' == c) && charsLeadingSegment ('w' :: 'k' :: []) rest) = true := hu2
        rw [Bool.and_eq_true] at hs3 hu3
        have hl : 'l' = c := eq_of_beq hs3.1
        have hu4 : 'u' = c := eq_of_beq hu3.1
        exact absurd (hl.trans hu4.symm) (by decide)
    rw [resolve_some_eq s, if_neg hne, if_neg hnp, if_neg hnu, if_pos hs]
  · intro o b
    cases o with
    | none => simp [_resolve_objective_function]
    | some s =>
      rw [resolve_some_eq s]
      split_ifs <;> simp

/-- Witness for C7 at concrete objectives: `uwk_off_by_one` resolves to the
unweighted kappa scorer with off-by-one tolerance, and `lwk` to the
linear-weighted kappa scorer without it. -/
theorem C7_objective_dispatch_witness :
    _resolve_objective_function (some ("uwk_off_by_one")) =
      .kappaScorer .unweighted true ∧
    _resolve_objective_function (some ("lwk")) = .kappaScorer .linear false := by
  constructor
  · have h := C7_objective_dispatch.1 ("uwk_off_by_one") (by decide)
    rw [if_neg (by decide)] at h
    exact h
  · have h := C7_objective_dispatch.2.1 ("lwk") (by decide)
    rw [if_pos rfl] at h
    exact h

/-! ## Store lemmas for the per-fold copies -/

theorem lookupD_cons_self (m : List (Nat × Nat)) (a b : Nat) :
    lookupD ((a, b) :: m) a = b := by
  simp [lookupD, List.find?_cons]

theorem lookupD_cons_ne (m : List (Nat × Nat)) (a b k : Nat) (h : a ≠ k) :
    lookupD ((a, b) :: m) k = lookupD m k := by
  simp [lookupD, List.find?_cons, h]

theorem getD_mem_of_lt : ∀ (l : List Nat) (k : Nat), k < l.length → l.getD k 0 ∈ l := by
  intro l
  induction l with
  | nil => intro k hk; exact absurd hk (Nat.not_lt_zero k)
  | cons a t ih =>
    intro k hk
    cases k with
    | zero => exact List.mem_cons_self a t
    | succ k2 => exact List.mem_cons_of_mem a (ih k2 (by simpa using hk))

theorem allocRow_cons (s : Store) (g : Nat) (rest : List Nat) :
    allocRow s (g :: rest) =
      ((allocRow ⟨s.nextRef + 1, (s.nextRef, lookupD s.best g) :: s.best, s.est⟩ rest).1,
       s.nextRef ::
         (allocRow ⟨s.nextRef + 1, (s.nextRef, lookupD s.best g) :: s.best, s.est⟩ rest).2) := rfl

theorem allocFolds_succ (s : Store) (gsRefs : List Nat) (f : Nat) :
    allocFolds s gsRefs (f + 1) =
      ((allocFolds (allocRow s gsRefs).1 gsRefs f).1,
       (allocRow s gsRefs).2 :: (allocFolds (allocRow s gsRefs).1 gsRefs f).2) := rfl

/-- Behavior of one row of copies: fresh references are handed out in
sequence, the estimator states are untouched, references older than the row
keep their `best_estimator_` bindings, and the k-th fresh wrapper is bound
to the `best_estimator_` of the k-th grid-search wrapper. -/
theorem allocRow_spec : ∀ (gs : List Nat) (s : Store),
    (allocRow s gs).1.nextRef = s.nextRef + gs.length ∧
    (allocRow s gs).1.est = s.est ∧
    (allocRow s gs).2.length = gs.length ∧
    (∀ k, k < gs.length → (allocRow s gs).2.getD k 0 = s.nextRef + k) ∧
    (∀ r, r < s.nextRef → lookupD (allocRow s gs).1.best r = lookupD s.best r) ∧
    ((∀ g ∈ gs, g < s.nextRef) → ∀ k, k < gs.length →
        lookupD (allocRow s gs).1.best (s.nextRef + k) =
          lookupD s.best (gs.getD k 0)) := by
  intro gs
  induction gs with
  | nil =>
    intro s
    refine ⟨rfl, rfl, rfl, ?_, ?_, ?_⟩
    · intro k hk; exact absurd hk (Nat.not_lt_zero k)
    · intro r _; rfl
    · intro _ k hk; exact absurd hk (Nat.not_lt_zero k)
  | cons g rest ih =>
    intro s
    rw [allocRow_cons]
    obtain ⟨i1, i2, i3, i4, i5, i6⟩ :=
      ih ⟨s.nextRef + 1, (s.nextRef, lookupD s.best g) :: s.best, s.est⟩
    refine ⟨?_, i2, ?_, ?_, ?_, ?_⟩
    · rw [i1]
      show s.nextRef + 1 + rest.length = s.nextRef + (rest.length + 1)
      omega
    · simp [i3]
    · intro k hk
      cases k with
      | zero => rfl
      | succ k2 =>
        have hk2 : k2 < rest.length := by simpa using hk
        show (allocRow _ rest).2.getD k2 0 = s.nextRef + (k2 + 1)
        rw [i4 k2 hk2]
        show s.nextRef + 1 + k2 = s.nextRef + (k2 + 1)
        omega
    · intro r hr
      rw [i5 r (by show r < s.nextRef + 1; omega)]
      exact lookupD_cons_ne s.best s.nextRef (lookupD s.best g) r (by omega)
    · intro hg k hk
      cases k with
      | zero =>
        show lookupD (allocRow _ rest).1.best (s.nextRef + 0) = lookupD s.best g
        rw [i5 (s.nextRef + 0) (by show s.nextRef + 0 < s.nextRef + 1; omega)]
        have : s.nextRef + 0 = s.nextRef := by omega
        rw [this]
        exact lookupD_cons_self s.best s.nextRef (lookupD s.best g)
      | succ k2 =>
        have hk2 : k2 < rest.length := by simpa using hk
        have hmem : rest.getD k2 0 ∈ rest := getD_mem_of_lt rest k2 hk2
        have hlt : rest.getD k2 0 < s.nextRef :=
          hg (rest.getD k2 0) (List.mem_cons_of_mem g hmem)
        have hstep : s.nextRef + (k2 + 1) = (s.nextRef + 1) + k2 := by omega
        show lookupD (allocRow _ rest).1.best (s.nextRef + (k2 + 1)) =
          lookupD s.best (rest.getD k2 0)
        rw [hstep,
            i6 (fun g2 hg2 => by
                  have h9 := hg g2 (List.mem_cons_of_mem g hg2)
                  show g2 < s.nextRef + 1
                  omega)
               k2 hk2]
        exact lookupD_cons_ne s.best s.nextRef (lookupD s.best g)
          (rest.getD k2 0) (by omega)

/-- Behavior of the full fold-major construction: the slot of learner `l` at
fold `f` is the fresh reference `nextRef + f * L + l`, estimator states are
untouched, and every slot of a given learner is bound to the one
`best_estimator_` of that learner, whatever the fold. -/
theorem allocFolds_spec (gsRefs : List Nat) : ∀ (folds : Nat) (s : Store),
    (∀ g ∈ gsRefs, g < s.nextRef) →
    (allocFolds s gsRefs folds).1.nextRef =
        s.nextRef + folds * gsRefs.length ∧
    (allocFolds s gsRefs folds).1.est = s.est ∧
    (allocFolds s gsRefs folds).2.length = folds ∧
    (∀ f l, f < folds → l < gsRefs.length →
        slotRef (allocFolds s gsRefs folds).2 l f =
          s.nextRef + f * gsRefs.length + l) ∧
    (∀ r, r < s.nextRef →
        lookupD (allocFolds s gsRefs folds).1.best r = lookupD s.best r) ∧
    (∀ f l, f < folds → l < gsRefs.length →
        lookupD (allocFolds s gsRefs folds).1.best
            (slotRef (allocFolds s gsRefs folds).2 l f) =
          lookupD s.best (gsRefs.getD l 0)) := by
  intro folds
  induction folds with
  | zero =>
    intro s _
    refine ⟨by show s.nextRef = s.nextRef + 0 * gsRefs.length; simp, rfl, rfl, ?_, ?_, ?_⟩
    · intro f l hf _; exact absurd hf (Nat.not_lt_zero f)
    · intro r _; rfl
    · intro f l hf _; exact absurd hf (Nat.not_lt_zero f)
  | succ f2 ih =>
    intro s hg
    rw [allocFolds_succ]
    obtain ⟨r1, r2, r3, r4, r5, r6⟩ := allocRow_spec gsRefs s
    have hg1 : ∀ g ∈ gsRefs, g < (allocRow s gsRefs).1.nextRef := by
      intro g hgm
      have := hg g hgm
      rw [r1]
      omega
    obtain ⟨i1, i2, i3, i4, i5, i6⟩ := ih (allocRow s gsRefs).1 hg1
    refine ⟨?_, ?_, ?_, ?_, ?_, ?_⟩
    · rw [i1, r1, Nat.succ_mul]
      omega
    · rw [i2, r2]
    · simp [i3]
    · intro f l hf hl
      cases f with
      | zero =>
        show ((allocRow s gsRefs).2).getD l 0 = s.nextRef + 0 * gsRefs.length + l
        rw [r4 l hl]
        simp
      | succ f3 =>
        have hf3 : f3 < f2 := by simpa using hf
        show slotRef (allocFolds (allocRow s gsRefs).1 gsRefs f2).2 l f3 =
          s.nextRef + (f3 + 1) * gsRefs.length + l
        rw [i4 f3 l hf3 hl, r1, Nat.succ_mul]
        omega
    · intro r hr
      rw [i5 r (by rw [r1]; omega)]
      exact r5 r hr
    · intro f l hf hl
      cases f with
      | zero =>
        show lookupD (allocFolds (allocRow s gsRefs).1 gsRefs f2).1.best
            (((allocRow s gsRefs).2).getD l 0) = lookupD s.best (gsRefs.getD l 0)
        rw [r4 l hl, i5 (s.nextRef + l) (by rw [r1]; omega)]
        exact r6 hg l hl
      | succ f3 =>
        have hf3 : f3 < f2 := by simpa using hf
        show lookupD (allocFolds (allocRow s gsRefs).1 gsRefs f2).1.best
            (slotRef (allocFolds (allocRow s gsRefs).1 gsRefs f2).2 l f3) =
          lookupD s.best (gsRefs.getD l 0)
        rw [i6 f3 l hf3 hl]
        have hmem := getD_mem_of_lt gsRefs l hl
        exact r5 (gsRefs.getD l 0) (hg (gsRefs.getD l 0) hmem)

/-- An in-place incremental update through a wrapper advances the state
observed through any wrapper bound to the same underlying estimator. -/
theorem incremental_fit_observed (st : Store) (w1 w2 : Nat)
    (hb : lookupD st.best w1 = lookupD st.best w2) :
    observedState (incremental_fit st w1) w2 = observedState st w2 + 1 := by
  unfold observedState incremental_fit
  show lookupD ((lookupD st.best w1, lookupD st.est (lookupD st.best w1) + 1)
        :: st.est) (lookupD st.best w2) = lookupD st.est (lookupD st.best w2) + 1
  rw [← hb]
  exact lookupD_cons_self st.est (lookupD st.best w1)
    (lookupD st.est (lookupD st.best w1) + 1)

/-- C2 (amended): for every learner index and every pair of distinct fold
indices, the `_cv_learners` construction (src/util/cv_learn.py:377-382)
yields pairwise distinct wrapper objects, but the wrappers of all folds of a
learner share one `best_estimator_` object (`copy` is the shallow copy), so
an in-place incremental update through the fold-i slot advances the fitted
state observed through the fold-j slot. -/
theorem C2_shallow_copies_share_best_estimator (s : Store) (gsRefs : List Nat)
    (folds : Nat) (hg : ∀ g ∈ gsRefs, g < s.nextRef)
    (l i j : Nat) (hl : l < gsRefs.length) (hi : i < folds) (hj : j < folds)
    (hij : i ≠ j) :
    slotRef (allocFolds s gsRefs folds).2 l i ≠
        slotRef (allocFolds s gsRefs folds).2 l j ∧
    lookupD (allocFolds s gsRefs folds).1.best
        (slotRef (allocFolds s gsRefs folds).2 l i) =
      lookupD (allocFolds s gsRefs folds).1.best
        (slotRef (allocFolds s gsRefs folds).2 l j) ∧
    observedState
        (incremental_fit (allocFolds s gsRefs folds).1
          (slotRef (allocFolds s gsRefs folds).2 l i))
        (slotRef (allocFolds s gsRefs folds).2 l j) =
      observedState (allocFolds s gsRefs folds).1
        (slotRef (allocFolds s gsRefs folds).2 l j) + 1 := by
  obtain ⟨h1, h2, h3, h4, h5, h6⟩ := allocFolds_spec gsRefs folds s hg
  have hL : 0 < gsRefs.length := Nat.lt_of_le_of_lt (Nat.zero_le l) hl
  refine ⟨?_, (h6 i l hi hl).trans (h6 j l hj hl).symm, ?_⟩
  · rw [h4 i l hi hl, h4 j l hj hl]
    intro heq
    have h7 := Nat.add_right_cancel heq
    have h8 := Nat.add_left_cancel h7
    exact hij (Nat.eq_of_mul_eq_mul_right hL h8)
  · exact incremental_fit_observed (allocFolds s gsRefs folds).1
      (slotRef (allocFolds s gsRefs folds).2 l i)
      (slotRef (allocFolds s gsRefs folds).2 l j)
      ((h6 i l hi hl).trans (h6 j l hj hl).symm)

/-- Witness for C2 at the concrete one-learner, two-fold store: the two slots
are distinct wrappers, share their underlying estimator, and an update
through fold 0 advances the state seen through fold 1. -/
theorem C2_shallow_copies_witness :
    slotRef c2_build.2 0 0 ≠ slotRef c2_build.2 0 1 ∧
    lookupD c2_build.1.best (slotRef c2_build.2 0 0) =
      lookupD c2_build.1.best (slotRef c2_build.2 0 1) ∧
    observedState (incremental_fit c2_build.1 (slotRef c2_build.2 0 0))
        (slotRef c2_build.2 0 1) =
      observedState c2_build.1 (slotRef c2_build.2 0 1) + 1 :=
  C2_shallow_copies_share_best_estimator gs_store [0] 2 (by decide) 0 0 1
    (by decide) (by decide) (by decide) (by decide)

end CvLearn
